import Mathlib

/-!
Verification development for the SplitItem repository: a shallow embedding of the
two-stage generate/upload pipeline (app/services/image_splitter.py), the Celery task
bodies (app/jobs/tasks.py), the try-on endpoint (app/api/endpoints/virtual_tryon.py),
and the image validation helpers (app/utils/image_workflow/__init__.py,
app/services/virtual_tryon_service.py). External collaborators (the Gemini client,
the MinIO storage client, PIL, the Redis connection) enter as function parameters;
the Celery queue substrate (retry on exception, result propagation through get) is
modelled from the configuration in app/jobs/celery_worker.py and the documented
semantics of the framework calls the code makes.
-/

/-! ## Status Tracker (Redis hash records for try-on tasks) -/

/-- Persisted try-on task record kept in the Redis hash keyed by the task id.
Field set follows app/models/virtual_tryon.py (status ranges over pending,
processing, completed, failed); only the fields touched by the hset writes present
in the source are modelled. -/
structure TryonRecord where
  status : Option String
  errorMessage : Option String
  updatedAt : Option String
deriving DecidableEq

/-- Terminal statuses of a try-on task per the data model in
app/models/virtual_tryon.py. -/
def isTerminalStatus (s : String) : Bool :=
  s == "completed" || s == "failed"

/-- The Status Tracker write performed by the failure handlers at
app/jobs/tasks.py lines 142-148 and app/utils/image_workflow/__init__.py lines
244-250: redis_client.hset merges the mapping fields into the hash, setting the
status to failed together with the error text and timestamp. The write reads
nothing and checks nothing: it applies to any current record state. -/
def tryonFailureWrite (r : TryonRecord) (errMsg ts : String) : TryonRecord :=
  { r with status := some "failed", errorMessage := some errMsg, updatedAt := some ts }

/-- A record whose task has already reached the terminal status completed. -/
def completedRecord : TryonRecord :=
  { status := some "completed", errorMessage := none, updatedAt := none }

/-! ## Celery task-queue substrate -/

/-- Outcome of a Celery task execution as observed through AsyncResult.get: either
the value the task body returned, or the exception that the body raised after its
retries were exhausted. Celery re-raises that exception inside the waiting caller
(get has propagate enabled by default), which is why the fan-in loops in
app/services/image_splitter.py wrap every get call in try/except. -/
inductive TaskOutcome (α : Type) where
  | value (a : α)
  | raised (e : String)
deriving DecidableEq

/-- One execution of a task body per attempt, with Celery retry-on-exception
semantics as invoked by self.retry(exc=e, countdown=5, max_retries=r) in
app/jobs/tasks.py: the body runs once plus up to fuel retries; the first normal
return ends the run; if the last permitted attempt also raises, the exception is
re-raised and the task is marked failed. Returns the outcome together with the
number of attempts executed. -/
def celeryRunFrom {α : Type} (body : Nat → Except String α) :
    Nat → Nat → TaskOutcome α × Nat
  | attempt, 0 =>
    match body attempt with
    | Except.ok a => (TaskOutcome.value a, attempt + 1)
    | Except.error e => (TaskOutcome.raised e, attempt + 1)
  | attempt, fuel + 1 =>
    match body attempt with
    | Except.ok a => (TaskOutcome.value a, attempt + 1)
    | Except.error _ => celeryRunFrom body (attempt + 1) fuel

/-- Full run of a Celery task whose except handler retries with the given
max_retries ceiling (2 in app/jobs/tasks.py). -/
def celeryRun {α : Type} (maxRetries : Nat) (body : Nat → Except String α) :
    TaskOutcome α × Nat :=
  celeryRunFrom body 0 maxRetries

/-- AsyncResult.get as called by the orchestrator: a returned value is handed back,
a stored exception is re-raised into the caller. -/
def celeryGet {α : Type} : TaskOutcome α → Except String α
  | TaskOutcome.value a => Except.ok a
  | TaskOutcome.raised e => Except.error e

/-! ## Worker task bodies (app/jobs/tasks.py) -/

/-- Result dictionary produced by generate_image_task (tasks.py lines 33-42): a
success flag, the category, and the generated bytes. The failure dictionary at
line 35 carries no image bytes; that absent key is modelled as the empty list. -/
structure GenResult where
  success : Bool
  category : String
  image_bytes : List Nat
deriving DecidableEq

/-- Result dictionary produced by upload_image_task (tasks.py lines 80-88). The
failure dictionary at line 88 omits category and url; those absent keys are
modelled as empty strings. -/
structure UploadResult where
  success : Bool
  category : String
  url : String
  filename : String
deriving DecidableEq

/-- generate_image_from_bytes (app/utils/image_workflow/__init__.py lines 78-142).
The Gemini streaming call is the collaborator parameter clientCall, whose value is
the accumulated image bytes of the stream or the exception it raised. The
surrounding try/except at lines 140-142 catches every exception and returns empty
bytes, and line 138 likewise returns empty bytes when the stream produced none, so
no generative-service failure ever escapes this function. -/
def generate_image_from_bytes (clientCall : Except String (List Nat)) : List Nat :=
  match clientCall with
  | Except.ok bs => bs
  | Except.error _ => []

/-- Typed failure dictionary returned by generate_image_task at line 35. -/
def failDict (category : String) : GenResult :=
  { success := false, category := category, image_bytes := [] }

/-- Body of generate_image_task (tasks.py lines 14-45) for one attempt; the
generative call outcome for attempt n is clientCall n. The body returns a typed
dictionary both on success and on an empty generation; the except handler at lines
43-45 (self.retry with countdown 5 and max_retries 2) is reachable only by an
exception that escapes generate_image_from_bytes, which swallows all
generative-service failures. -/
def generate_image_task_body (clientCall : Nat → Except String (List Nat))
    (category : String) (attempt : Nat) : Except String GenResult :=
  let bs := generate_image_from_bytes (clientCall attempt)
  if bs.isEmpty then Except.ok (failDict category)
  else Except.ok { success := true, category := category, image_bytes := bs }

/-- Structural model of the Python str.split for a one-character separator, used at
app/api/endpoints/virtual_tryon.py line 63 (comma) and app/jobs/tasks.py line 78
(underscore). Matches Python semantics: splitting the empty string yields one empty
piece. -/
def pySplit (sep : Char) : List Char → List (List Char)
  | [] => [[]]
  | c :: rest =>
    match pySplit sep rest with
    | [] => if c = sep then [[], []] else [[c]]
    | w :: ws => if c = sep then [] :: w :: ws else (c :: w) :: ws

/-- Category recovery inside upload_image_task (tasks.py line 78):
file_name.split on underscore, element 1. The Python expression would raise
IndexError on a name without an underscore; every name this system builds contains
one, and the model totalises the lookup with an empty default. -/
def categoryOfFileName (fn : String) : String :=
  (((pySplit '_' fn.data).map String.mk).getD 1 "")

/-- Body of upload_image_task (tasks.py lines 48-92) for one attempt. The storage
call (app/utils/minio upload helper, a collaborator) may raise, and that exception
reaches the handler at lines 90-92 which calls self.retry(countdown=5,
max_retries=2). The object name handed to storage is exactly the file_name
argument: Celery redelivers the identical arguments on every retry, so the key
does not depend on the attempt index. -/
def upload_image_task_body (storePut : String → Nat → Except String Bool)
    (urlOf : String → String → String)
    (fileName bucket : String) (attempt : Nat) : Except String UploadResult :=
  match storePut fileName attempt with
  | Except.error e => Except.error e
  | Except.ok true =>
    Except.ok { success := true, category := categoryOfFileName fileName,
                url := urlOf bucket fileName, filename := fileName }
  | Except.ok false =>
    Except.ok { success := false, category := "", url := "", filename := fileName }

/-- Object key used by attempt n of an upload task execution: the storage call at
tasks.py lines 65-70 passes object_name = file_name, and a Celery retry re-executes
the body with the same arguments, so the key is the submitted file name whatever
the attempt index. -/
def uploadAttemptKey (fileName : String) (_attempt : Nat) : String :=
  fileName

/-! ## Orchestrator pipeline (app/services/image_splitter.py) -/

/-- Fan-in 1 filter (image_splitter.py lines 55-66): for one category the wait
either raises (timeout or a propagated worker exception; the except branch drops
the unit and continues) or yields the task return value, kept only when it is
truthy and its success flag is truthy. -/
def keepGenerated (genOut : String → Except String (Option GenResult))
    (c : String) : Option (String × GenResult) :=
  match genOut c with
  | Except.ok (some r) => if r.success then some (c, r) else none
  | _ => none

/-- Successful generation results collected by fan-in 1, keyed by category
(image_splitter.py line 53-66). Categories come from CATEGORIES in
app/utils/image_workflow/prompt.py. -/
def generatedResults (cats : List String)
    (genOut : String → Except String (Option GenResult)) :
    List (String × GenResult) :=
  cats.filterMap (keepGenerated genOut)

/-- Object name built at image_splitter.py line 78 from the category and the
uuid4 hex prefix drawn at submission time. -/
def splitFileName (category nonce : String) : String :=
  "generated_" ++ category ++ "_" ++ nonce ++ ".jpg"

/-- Phase 2 submission filter (image_splitter.py lines 72-85): units with falsy
image bytes are skipped; otherwise an upload task is submitted under the nonced
object name. -/
def keepSubmission (nonce : String → String) (p : String × GenResult) :
    Option (String × String × List Nat) :=
  if p.2.image_bytes.isEmpty then none
  else some (p.1, splitFileName p.1 (nonce p.1), p.2.image_bytes)

/-- Upload submissions of phase 2: one per surviving generation result, carrying
the originating category, the object name and the bytes. -/
def uploadSubmissions (cats : List String)
    (genOut : String → Except String (Option GenResult))
    (nonce : String → String) : List (String × String × List Nat) :=
  (generatedResults cats genOut).filterMap (keepSubmission nonce)

/-- Fan-in 2 filter (image_splitter.py lines 89-100): same wait semantics as
fan-in 1; only truthy results with a truthy success flag are appended. -/
def keepUploaded
    (upOut : String → String → List Nat → Except String (Option UploadResult))
    (s : String × String × List Nat) : Option (String × UploadResult) :=
  match upOut s.1 s.2.1 s.2.2 with
  | Except.ok (some r) => if r.success then some (s.1, r) else none
  | _ => none

/-- Items surviving both stages, paired with their originating category. -/
def pipelineItems (cats : List String)
    (genOut : String → Except String (Option GenResult))
    (upOut : String → String → List Nat → Except String (Option UploadResult))
    (nonce : String → String) : List (String × UploadResult) :=
  (uploadSubmissions cats genOut nonce).filterMap (keepUploaded upOut)

/-- The list generate_and_upload_images returns (image_splitter.py line 103): the
successful upload results in order. -/
def returnedItems (cats : List String)
    (genOut : String → Except String (Option GenResult))
    (upOut : String → String → List Nat → Except String (Option UploadResult))
    (nonce : String → String) : List UploadResult :=
  (pipelineItems cats genOut upOut nonce).map Prod.snd

/-- A generation-stage failure for a unit as observed at fan-in 1: the wait raised
(timeout or propagated worker failure), the task returned a falsy result, or the
result carries a false success flag. -/
def genStageFailed (o : Except String (Option GenResult)) : Bool :=
  match o with
  | Except.ok (some r) => !r.success
  | _ => true

/-- Keys of CATEGORIES in app/utils/image_workflow/prompt.py. -/
def splitCats : List String := ["Top", "Bot"]

/-! ## Split endpoint (app/api/endpoints/image_splitter.py) -/

/-- Response body of the split-image endpoint. -/
structure SplitResponse where
  statusCode : Nat
  success : Bool
  message : String
  items : List UploadResult
deriving DecidableEq

/-- split_image endpoint (image_splitter.py endpoint lines 20-39): the service call
returns normally for every per-unit outcome (its fan-in loops catch their own
exceptions), and the endpoint wraps whatever list comes back in an HTTP 200 success
body. The except branch mapping to HTTP 500 is reachable only through faults
outside this model, such as a broker error during submission. -/
def split_image (cats : List String)
    (genOut : String → Except String (Option GenResult))
    (upOut : String → String → List Nat → Except String (Option UploadResult))
    (nonce : String → String) : SplitResponse :=
  { statusCode := 200, success := true,
    message := "Successfully generated "
      ++ toString (returnedItems cats genOut upOut nonce).length ++ " images",
    items := returnedItems cats genOut upOut nonce }

/-! ## Serial fan-in wait timing (image_splitter.py lines 55-66 and 89-100) -/

/-- Wall-clock model of the fan-in loops: handles are awaited one after another in
a for loop, and each get blocks from the moment the previous get returned until
the task completes or the per-call timeout expires, whichever happens first. The
list holds each task absolute completion time, none for a task that never
completes; tasks run concurrently from stage start, only the waits serialize. -/
def serialWaitFrom (timeout : Nat) : Nat → List (Option Nat) → Nat
  | t, [] => t
  | t, none :: cs => serialWaitFrom timeout (t + timeout) cs
  | t, some ct :: cs => serialWaitFrom timeout (max t (min ct (t + timeout))) cs

/-- Total wall-clock duration of one fan-in stage under the serial wait loop. -/
def stageWaitTime (timeout : Nat) (completions : List (Option Nat)) : Nat :=
  serialWaitFrom timeout 0 completions

/-! ## Try-on endpoint (app/api/endpoints/virtual_tryon.py) -/

/-- Dictionary returned by generate_tryon_image
(app/utils/image_workflow/__init__.py lines 146-253): always a value, never an
exception — the closing except converts every failure into a success-false
dictionary (after a best-effort Redis failure write). -/
structure TryonGenResult where
  success : Bool
  image_bytes : List Nat
  errorMessage : Option String
deriving DecidableEq

/-- HTTP reply of the try-on endpoint: a 200 body with elapsed time and result
URL, or an HTTPException with a status code and an error message. -/
inductive TryonResponse where
  | ok (elapsed url : String)
  | err (statusCode : Nat) (message : String)
deriving DecidableEq

/-- Clothing URL extraction at virtual_tryon.py line 63: the first value of the
clothing_urls parameter is split on commas; values after the first are ignored,
and a missing or empty parameter yields no URLs. -/
def parsedClothingUrls (raw : List String) : List String :=
  match raw with
  | [] => []
  | u :: _ => (pySplit ',' u.data).map String.mk

/-- True when the Python strip of the string is empty: the emptiness test used by
the ClothingItemSchema field validator (app/schemas/virtual_tryon.py lines 17-22)
and validate_clothing_items (app/services/virtual_tryon_service.py line 102). -/
def strippedEmpty (s : String) : Bool :=
  s.data.all Char.isWhitespace

/-- MINIO_PUBLIC_BUCKET_NAME default from app/core/config.py. -/
def minioPublicBucket : String := "sop"

/-- Tail of create_tryon_request after validation passes (virtual_tryon.py lines
75-109): generation runs in-process and returns a dictionary; on success an
upload task is submitted (this is the only queue submission of the flow, recorded
as a pair of object name and bucket) and its result awaited; every failure maps
to HTTP 500. Wall-clock measurement is outside the model, so the elapsed field is
a fixed placeholder. -/
def tryonGenerateAndUpload (genTry : List Nat → List String → TryonGenResult)
    (uploadGet : List Nat → String → Except String (Option UploadResult))
    (taskId : String) (converted : List Nat) (urls : List String) :
    TryonResponse × List (String × String) :=
  if (genTry converted urls).success then
    match uploadGet (genTry converted urls).image_bytes ("tryon_" ++ taskId ++ ".jpg") with
    | Except.error m =>
      (TryonResponse.err 500 m, [("tryon_" ++ taskId ++ ".jpg", minioPublicBucket)])
    | Except.ok none =>
      (TryonResponse.err 500 "Failed to upload to MinIO",
        [("tryon_" ++ taskId ++ ".jpg", minioPublicBucket)])
    | Except.ok (some ur) =>
      if ur.success then
        (TryonResponse.ok "elapsed" ur.url,
          [("tryon_" ++ taskId ++ ".jpg", minioPublicBucket)])
      else
        (TryonResponse.err 500 "Failed to upload to MinIO",
          [("tryon_" ++ taskId ++ ".jpg", minioPublicBucket)])
  else
    (TryonResponse.err 500 (((genTry converted urls).errorMessage).getD "Generation failed"), [])

/-- create_tryon_request (virtual_tryon.py lines 35-116) with its effect log: the
second component lists the queue submissions performed (object name and bucket);
storage writes happen only inside a submitted upload task, so an empty log means
zero side effects. ValueError paths map to HTTP 400 (the pydantic ValidationError
raised by ClothingItemSchema subclasses ValueError and lands in the same handler);
all other failures map to HTTP 500. vhi is validate_human_image
(app/services/virtual_tryon_service.py lines 19-72), which returns converted
bytes with the mime type or raises ValueError. -/
def create_tryon_request (vhi : List Nat → Except String (List Nat × String))
    (genTry : List Nat → List String → TryonGenResult)
    (uploadGet : List Nat → String → Except String (Option UploadResult))
    (taskId : String) (humanBytes : List Nat) (rawUrls : List String) :
    TryonResponse × List (String × String) :=
  if humanBytes.isEmpty then
    (TryonResponse.err 400 "Human image file is empty", [])
  else
    match vhi humanBytes with
    | Except.error m => (TryonResponse.err 400 m, [])
    | Except.ok conv =>
      if (parsedClothingUrls rawUrls).isEmpty then
        (TryonResponse.err 400 "At least one clothing item URL is required", [])
      else if 3 < (parsedClothingUrls rawUrls).length then
        (TryonResponse.err 400 "Maximum 3 clothing items allowed", [])
      else if (parsedClothingUrls rawUrls).any strippedEmpty then
        (TryonResponse.err 400 "clothing item has empty image URL", [])
      else
        tryonGenerateAndUpload genTry uploadGet taskId conv.1 (parsedClothingUrls rawUrls)

/-! ## Split-flow image validation (app/utils/image_workflow/__init__.py 33-75) -/

/-- The slice of a PIL image object this flow inspects. -/
structure PILImage where
  format : Option String
  mode : String
  width : Nat
  height : Nat
deriving DecidableEq

/-- Mode normalisation of _validate_and_convert_image (lines 54-62): RGBA is
flattened onto a white background, and any mode other than RGB or L is converted
to RGB. -/
def normalizeMode (img : PILImage) : PILImage :=
  if img.mode = "RGBA" then { img with mode := "RGB" }
  else if img.mode ≠ "RGB" ∧ img.mode ≠ "L" then { img with mode := "RGB" }
  else img

/-- _validate_and_convert_image (image_workflow/__init__.py lines 33-75; the
leading underscore of the Python name is dropped). PIL decoding and JPEG
re-encoding are collaborator parameters, with none standing for any exception
they raise. The whole body sits in a try/except whose handler returns the
original bytes with mime image/jpeg, so the function is total and never rejects
an input; the dimension check at lines 51-52 only prints a warning and has no
effect on the result, so it leaves no trace in the data flow. -/
def validate_and_convert_image (decode : List Nat → Option PILImage)
    (encodeJPEG : PILImage → Option (List Nat)) (fileContent : List Nat) :
    List Nat × String :=
  match decode fileContent with
  | none => (fileContent, "image/jpeg")
  | some img =>
    match encodeJPEG (normalizeMode img) with
    | some bs => (bs, "image/jpeg")
    | none => (fileContent, "image/jpeg")

/-! ## Claim C1 — Status Tracker terminal-status writes -/

/-- Claim C1, counterexample: the claim states that once a record holds a terminal
status, no later write changes the status field, and that every Status Tracker
write rejects a backward transition from a terminal state. The failure-handler
write present in the source (tasks.py lines 142-148) applied to a record in the
terminal status completed accepts the write and changes the status to failed: no
write in the source performs any rejection. -/
theorem c1_counterexample :
    isTerminalStatus "completed" = true ∧
    completedRecord.status = some "completed" ∧
    (tryonFailureWrite completedRecord "Download failed" "2026-01-01T00:00:00").status
      = some "failed" := by
  exact ⟨rfl, rfl, rfl⟩

/-- Claim C1, amended: the Status Tracker writes in the source are unconditional
field merges. The failure handler sets the status field to failed whatever the
current record holds — including a terminal completed status — so no write rejects
a backward transition; monotonicity is not enforced anywhere. -/
theorem c1_thm (r : TryonRecord) (errMsg ts : String) :
    (tryonFailureWrite r errMsg ts).status = some "failed" := rfl

/-! ## Claim C4 — fan-in wait latency -/

/-- Claim C4, counterexample: the claim states the total stage wait is bounded by
the maximum single-unit timeout because the waits are multiplexed concurrently.
The fan-in loops await handles one after another; with two units that never
complete and the 120 second per-call timeout of image_splitter.py, the stage wait
is 240 seconds, exceeding the single-unit timeout. -/
theorem c4_counterexample :
    stageWaitTime 120 [none, none] = 240 ∧ 120 < stageWaitTime 120 [none, none] := by
  exact ⟨rfl, by decide⟩

/-- Upper bound for the serial wait loop: starting at time t, the loop finishes no
later than t plus one full timeout per remaining handle. -/
theorem serialWaitFrom_le (timeout : Nat) (cs : List (Option Nat)) :
    ∀ t : Nat, serialWaitFrom timeout t cs ≤ t + cs.length * timeout := by
  induction cs with
  | nil => intro t; simp [serialWaitFrom]
  | cons c cs ih =>
    intro t
    cases c with
    | none =>
      simp only [serialWaitFrom, List.length_cons]
      calc serialWaitFrom timeout (t + timeout) cs
          ≤ (t + timeout) + cs.length * timeout := ih (t + timeout)
        _ = t + (cs.length + 1) * timeout := by ring
    | some ct =>
      simp only [serialWaitFrom, List.length_cons]
      calc serialWaitFrom timeout (max t (min ct (t + timeout))) cs
          ≤ (max t (min ct (t + timeout))) + cs.length * timeout := ih _
        _ ≤ (t + timeout) + cs.length * timeout :=
            Nat.add_le_add_right (max_le (Nat.le_add_right _ _) (min_le_right _ _)) _
        _ = t + (cs.length + 1) * timeout := by ring

/-- Claim C4, amended: the Orchestrator awaits the handles of a stage one after
another in a for loop, so the total stage wait is bounded by the number of units
times the per-unit timeout — the sum, not the maximum. -/
theorem c4_thm (timeout : Nat) (cs : List (Option Nat)) :
    stageWaitTime timeout cs ≤ cs.length * timeout := by
  have h := serialWaitFrom_le timeout cs 0
  simpa [stageWaitTime] using h

/-! ## Claim C5 — queue-layer retry of generative-service failures -/

/-- Claim C5, counterexample: the claim states every network or quota failure
raised by the generative service inside a generation task body is retried by the
queue layer with 5 second backoff up to the attempt ceiling. A quota failure
raised by the client is caught inside generate_image_from_bytes and converted to
empty bytes, so the task returns the typed failure dictionary on its very first
attempt: the run ends after exactly one attempt, with no retry and no exhaustion. -/
theorem c5_counterexample :
    celeryRun 2 (generate_image_task_body (fun _ => Except.error "QuotaExceeded") "Top")
      = (TaskOutcome.value (failDict "Top"), 1) := rfl

/-- Claim C5, amended: a network or quota failure from the generative client never
reaches the queue retry layer — generate_image_from_bytes swallows it and returns
empty bytes, so generate_image_task returns the typed failure dictionary for the
unit immediately, on attempt one, and the 5 second backoff retry (max_retries 2)
of the except handler is never triggered for such failures. The failure surfaces
as a generation-stage failure for that unit without any retry. -/
theorem c5_thm (e : String) (category : String) :
    celeryRun 2 (generate_image_task_body (fun _ => Except.error e) category)
      = (TaskOutcome.value (failDict category), 1) := rfl

/-! ## Claim C2 — worker failure propagation into the fan-in wait -/

/-- Inversion of the fan-in 1 filter: a kept pair comes from a wait that returned
a truthy dictionary with a true success flag, keyed by its own category. -/
theorem keepGenerated_inv (genOut : String → Except String (Option GenResult))
    (a : String) (p : String × GenResult) (h : keepGenerated genOut a = some p) :
    p.1 = a ∧ genOut a = Except.ok (some p.2) ∧ p.2.success = true := by
  unfold keepGenerated at h
  split at h
  · rename_i r heq
    split at h
    · rename_i hrs
      injection h with h
      subst h
      exact ⟨rfl, heq, hrs⟩
    · exact absurd h (by simp)
  · exact absurd h (by simp)

/-- Upload task body whose storage call raises on every attempt. -/
def failingUploadBody : Nat → Except String UploadResult :=
  fun _ => Except.error "ConnectionError"

/-- Fan-in outcome function under which every unit wait raises. -/
def timeoutGenOut : String → Except String (Option GenResult) :=
  fun _ => Except.error "ConnectionError"

/-- Claim C2, counterexample: the claim states that a task failure after exhausted
retries reaches the fan-in wait as a typed dictionary and is never raised into the
caller awaiting the handle. For a task body that raises on every attempt (storage
failing each time), the run performs all three attempts, ends in the raised state,
and AsyncResult.get re-raises the exception into the waiting caller instead of
returning any dictionary. -/
theorem c2_counterexample :
    celeryGet (celeryRun 2 failingUploadBody).1 = Except.error "ConnectionError" ∧
    (celeryRun 2 failingUploadBody).2 = 3 := by
  exact ⟨rfl, rfl⟩

/-- Claim C2, amended: after retries are exhausted the failure is re-raised as an
exception out of the fan-in get call into the awaiting Orchestrator, which
catches it in the per-unit try/except and drops the unit from the collected
results; only a body that returns normally (such as an empty generation) reaches
the waiter as a typed success-flag dictionary. -/
theorem c2_thm (body : Nat → Except String UploadResult) (e : String)
    (hb : ∀ n, body n = Except.error e)
    (cats : List String) (genOut : String → Except String (Option GenResult))
    (c : String) (hc : genOut c = Except.error e) :
    celeryGet (celeryRun 2 body).1 = Except.error e ∧
    c ∉ (generatedResults cats genOut).map (fun p => p.1) := by
  constructor
  · simp [celeryRun, celeryRunFrom, hb, celeryGet]
  · intro hmem
    rcases List.mem_map.mp hmem with ⟨p, hp, hpc⟩
    rcases List.mem_filterMap.mp hp with ⟨a, _ha, hap⟩
    rcases keepGenerated_inv genOut a p hap with ⟨hpa, hgo, _⟩
    have hac : a = c := by rw [← hpa]; exact hpc
    rw [hac, hc] at hgo
    exact absurd hgo (by simp)

/-- Witness for c2_thm at a concrete failing body and a concrete raising fan-in. -/
theorem c2_witness :
    celeryGet (celeryRun 2 failingUploadBody).1 = Except.error "ConnectionError" ∧
    "Top" ∉ (generatedResults ["Top", "Bot"] timeoutGenOut).map (fun p => p.1) :=
  c2_thm failingUploadBody "ConnectionError" (fun _ => rfl)
    ["Top", "Bot"] timeoutGenOut "Top" rfl

/-! ## Claim C6 — per-attempt object keys -/

/-- Claim C6, counterexample: the claim states no two attempts of the same unit
upload write under the same storage key. The object name is derived once at
submission (image_splitter.py line 78) and passed as a task argument; a queue
retry re-executes the body with the same arguments, so attempts 0 and 1 of the
same submission use the identical key. -/
theorem c6_counterexample :
    uploadAttemptKey (splitFileName "Top" "aaaa1111") 0
      = uploadAttemptKey (splitFileName "Top" "aaaa1111") 1 := rfl

/-- String append acts on the underlying character lists. -/
theorem stringAppendData (a b : String) : (a ++ b).data = a.data ++ b.data := rfl

/-- Claim C6, amended: the nonce in the object key is fresh per submission, not
per attempt — every retried attempt of one submission reuses the same key, while
two submissions of the same category with distinct nonces get distinct keys. -/
theorem c6_thm (fileName : String) (n m : Nat) (cat n1 n2 : String) (hne : n1 ≠ n2) :
    uploadAttemptKey fileName n = uploadAttemptKey fileName m ∧
    splitFileName cat n1 ≠ splitFileName cat n2 := by
  refine ⟨rfl, fun h => hne ?_⟩
  have hd := congrArg String.data h
  simp only [splitFileName, stringAppendData] at hd
  have h2 : n1.data = n2.data :=
    List.append_cancel_left (List.append_cancel_right hd)
  cases n1
  cases n2
  exact congrArg String.mk h2

/-- Witness for c6_thm at concrete nonces. -/
theorem c6_witness :
    uploadAttemptKey (splitFileName "Top" "bbbb2222") 0
      = uploadAttemptKey (splitFileName "Top" "bbbb2222") 5 ∧
    splitFileName "Top" "aaaa1111" ≠ splitFileName "Top" "bbbb2222" :=
  c6_thm (splitFileName "Top" "bbbb2222") 0 5 "Top" "aaaa1111" "bbbb2222" (by decide)

/-! ## Claim C3 — empty success set at the split endpoint -/

/-- Fan-in outcome under which every generation wait times out. -/
def allTimeoutGen : String → Except String (Option GenResult) :=
  fun _ => Except.error "TimeoutError"

/-- Upload-wait outcome that is never consulted because nothing is submitted. -/
def unusedUpload : String → String → List Nat → Except String (Option UploadResult) :=
  fun _ _ _ => Except.error "unused"

/-- Fixed nonce drawing for concrete pipeline runs. -/
def nonce0 : String → String := fun _ => "aaaa1111"

/-- Claim C3, counterexample: the claim states a multi-unit request whose
successful-output set is empty is surfaced as a server error. With both
categories failing generation, the endpoint instead returns HTTP 200 with a
success flag and zero items. -/
theorem c3_counterexample :
    (split_image splitCats allTimeoutGen unusedUpload nonce0).statusCode = 200 ∧
    (split_image splitCats allTimeoutGen unusedUpload nonce0).success = true ∧
    (split_image splitCats allTimeoutGen unusedUpload nonce0).items = [] := by
  exact ⟨rfl, rfl, rfl⟩

/-- Claim C3, amended: when the successful-output set of the multi-unit pipeline
is empty, the split endpoint returns an HTTP 200 success envelope reporting zero
generated images; no TotalFailure signal or server error exists in this path. -/
theorem c3_thm (cats : List String)
    (genOut : String → Except String (Option GenResult))
    (upOut : String → String → List Nat → Except String (Option UploadResult))
    (nonce : String → String)
    (h : returnedItems cats genOut upOut nonce = []) :
    split_image cats genOut upOut nonce =
      { statusCode := 200, success := true,
        message := "Successfully generated 0 images", items := [] } := by
  unfold split_image
  rw [h]
  rfl

/-- Witness for c3_thm at the all-failing run. -/
theorem c3_witness :
    split_image splitCats allTimeoutGen unusedUpload nonce0 =
      { statusCode := 200, success := true,
        message := "Successfully generated 0 images", items := [] } :=
  c3_thm splitCats allTimeoutGen unusedUpload nonce0 rfl

/-! ## Claim C7 — failed generation submits no upload -/

/-- Inversion of the phase 2 submission filter: a submission carries the category
of the generation result it came from. -/
theorem keepSubmission_inv (nonce : String → String) (p : String × GenResult)
    (s : String × String × List Nat) (h : keepSubmission nonce p = some s) :
    s.1 = p.1 := by
  unfold keepSubmission at h
  split at h
  · exact absurd h (by simp)
  · injection h with h
    subst h
    rfl

/-- Claim C7: a work unit whose generation stage fails — the wait raised (timeout
or propagated worker failure), the task returned a falsy result, or the result
carried a false success flag — never has an upload task submitted for it. -/
theorem c7_thm (cats : List String)
    (genOut : String → Except String (Option GenResult))
    (nonce : String → String) (c : String)
    (h : genStageFailed (genOut c) = true) :
    c ∉ (uploadSubmissions cats genOut nonce).map (fun s => s.1) := by
  intro hmem
  rcases List.mem_map.mp hmem with ⟨s, hs, hsc⟩
  rcases List.mem_filterMap.mp hs with ⟨p, hp, hps⟩
  rcases List.mem_filterMap.mp hp with ⟨a, _ha, hap⟩
  rcases keepGenerated_inv genOut a p hap with ⟨hpa, hgo, hsucc⟩
  have hsa : s.1 = p.1 := keepSubmission_inv nonce p s hps
  have hac : a = c := by rw [← hpa, ← hsa]; exact hsc
  rw [hac] at hgo
  unfold genStageFailed at h
  rw [hgo] at h
  simp [hsucc] at h

/-- Mixed outcome: the Top generation wait raises, the Bot generation succeeds. -/
def mixedGen : String → Except String (Option GenResult) :=
  fun c =>
    if c = "Top" then Except.error "TimeoutError"
    else Except.ok (some { success := true, category := c, image_bytes := [7] })

/-- Witness for c7_thm: in a run where Top fails and Bot succeeds, no upload is
submitted for Top. -/
theorem c7_witness :
    "Top" ∉ (uploadSubmissions splitCats mixedGen nonce0).map (fun s => s.1) :=
  c7_thm splitCats mixedGen nonce0 "Top" (by decide)

/-! ## Claim C8 — output size bounded by the unit count -/

/-- A filterMap whose kept elements carry the key of their source element yields a
key list that is a sublist of the source keys. -/
theorem map_filterMap_sublist_map {α β γ : Type} (f : α → Option β) (kb : β → γ)
    (ka : α → γ) (hf : ∀ a b, f a = some b → kb b = ka a) :
    ∀ l : List α, List.Sublist ((l.filterMap f).map kb) (l.map ka) := by
  intro l
  induction l with
  | nil => simp
  | cons a l ih =>
    cases hfa : f a with
    | none =>
      simpa [List.filterMap_cons, hfa] using List.Sublist.cons (ka a) ih
    | some b =>
      have hk := hf a b hfa
      simpa [List.filterMap_cons, hfa, hk] using List.Sublist.cons₂ (ka a) ih

/-- Inversion of the fan-in 2 filter: a kept item carries its submission key. -/
theorem keepUploaded_inv
    (upOut : String → String → List Nat → Except String (Option UploadResult))
    (s : String × String × List Nat) (q : String × UploadResult)
    (h : keepUploaded upOut s = some q) : q.1 = s.1 := by
  unfold keepUploaded at h
  split at h
  · split at h
    · injection h with h
      subst h
      rfl
    · exact absurd h (by simp)
  · exact absurd h (by simp)

/-- The categories of the items surviving both stages form a sublist of the
submitted category list. -/
theorem pipeline_keys_sublist (cats : List String)
    (genOut : String → Except String (Option GenResult))
    (upOut : String → String → List Nat → Except String (Option UploadResult))
    (nonce : String → String) :
    List.Sublist ((pipelineItems cats genOut upOut nonce).map (fun p => p.1)) cats := by
  have h1 : List.Sublist ((generatedResults cats genOut).map (fun p => p.1))
      (cats.map (fun c => c)) :=
    map_filterMap_sublist_map (keepGenerated genOut) (fun p => p.1) (fun c => c)
      (fun a b hb => (keepGenerated_inv genOut a b hb).1) cats
  have h2 : List.Sublist ((uploadSubmissions cats genOut nonce).map (fun s => s.1))
      ((generatedResults cats genOut).map (fun p => p.1)) :=
    map_filterMap_sublist_map (keepSubmission nonce) (fun s => s.1) (fun p => p.1)
      (fun p s hs => keepSubmission_inv nonce p s hs) (generatedResults cats genOut)
  have h3 : List.Sublist ((pipelineItems cats genOut upOut nonce).map (fun p => p.1))
      ((uploadSubmissions cats genOut nonce).map (fun s => s.1)) :=
    map_filterMap_sublist_map (keepUploaded upOut) (fun p => p.1) (fun s => s.1)
      (fun s q hq => keepUploaded_inv upOut s q hq) (uploadSubmissions cats genOut nonce)
  have h4 := (h3.trans h2).trans h1
  simpa using h4

/-- Claim C8: for a request over the units of cats, the returned list holds at
most one item per submitted unit, and in particular at most cats.length items. -/
theorem c8_thm (cats : List String)
    (genOut : String → Except String (Option GenResult))
    (upOut : String → String → List Nat → Except String (Option UploadResult))
    (nonce : String → String) (hnd : cats.Nodup) :
    (returnedItems cats genOut upOut nonce).length ≤ cats.length ∧
    ∀ u : String,
      ((pipelineItems cats genOut upOut nonce).map (fun p => p.1)).count u ≤ 1 := by
  have hsub := pipeline_keys_sublist cats genOut upOut nonce
  constructor
  · have hlen := hsub.length_le
    simpa [returnedItems] using hlen
  · intro u
    exact le_trans (hsub.count_le u) (List.nodup_iff_count_le_one.mp hnd u)

/-- Generation outcome under which every unit succeeds. -/
def allOkGen : String → Except String (Option GenResult) :=
  fun c => Except.ok (some { success := true, category := c, image_bytes := [7] })

/-- Upload outcome under which every submission succeeds. -/
def allOkUpload : String → String → List Nat → Except String (Option UploadResult) :=
  fun c fn _ => Except.ok (some { success := true, category := c, url := "u", filename := fn })

/-- Witness for c8_thm on the concrete two-category run. -/
theorem c8_witness :
    (returnedItems splitCats allOkGen allOkUpload nonce0).length ≤ splitCats.length ∧
    ∀ u : String,
      ((pipelineItems splitCats allOkGen allOkUpload nonce0).map (fun p => p.1)).count u ≤ 1 :=
  c8_thm splitCats allOkGen allOkUpload nonce0 (by decide)

/-! ## Claim C9 — rejection of oversized clothing lists -/

/-- Human-image validation that accepts, returning the bytes as JPEG. -/
def vhiOk : List Nat → Except String (List Nat × String) :=
  fun bs => Except.ok (bs, "image/jpeg")

/-- Generation collaborator that succeeds with fixed bytes. -/
def genTryOk : List Nat → List String → TryonGenResult :=
  fun _ _ => { success := true, image_bytes := [5], errorMessage := none }

/-- Upload wait that succeeds and returns the object URL. -/
def uploadGetOk : List Nat → String → Except String (Option UploadResult) :=
  fun _ fn =>
    Except.ok (some { success := true, category := "",
                      url := "http://minio/sop/" ++ fn, filename := fn })

/-- Claim C9, counterexample: the claim states every try-on request carrying more
than 3 clothing-item URLs is rejected with a 4xx error before any task is
submitted. A request carrying four URLs as four separate clothing_urls values is
not rejected: line 63 of the endpoint only reads the first value and splits it on
commas, so the other three URLs are silently ignored, the request proceeds, and
an upload task is submitted (a side effect), with an HTTP 200 reply. -/
theorem c9_counterexample :
    (create_tryon_request vhiOk genTryOk uploadGetOk "t1" [1] ["a", "b", "c", "d"]).2
      = [("tryon_t1.jpg", "sop")] ∧
    (create_tryon_request vhiOk genTryOk uploadGetOk "t1" [1] ["a", "b", "c", "d"]).1
      = TryonResponse.ok "elapsed" "http://minio/sop/tryon_t1.jpg" := by
  exact ⟨rfl, rfl⟩

/-- Claim C9, amended: the URL count the endpoint enforces is the length of the
comma-split of the FIRST clothing_urls value (later values are ignored). Whenever
that parsed list has more than 3 entries, the request is answered with an HTTP
400 error and the effect log stays empty: no task is submitted and hence no
storage write happens. -/
theorem c9_thm (vhi : List Nat → Except String (List Nat × String))
    (genTry : List Nat → List String → TryonGenResult)
    (uploadGet : List Nat → String → Except String (Option UploadResult))
    (taskId : String) (humanBytes : List Nat) (rawUrls : List String)
    (h : 3 < (parsedClothingUrls rawUrls).length) :
    (create_tryon_request vhi genTry uploadGet taskId humanBytes rawUrls).2 = [] ∧
    ∃ m, (create_tryon_request vhi genTry uploadGet taskId humanBytes rawUrls).1
      = TryonResponse.err 400 m := by
  have hne : (parsedClothingUrls rawUrls).isEmpty = false := by
    cases hl : parsedClothingUrls rawUrls with
    | nil => rw [hl] at h; simp at h
    | cons a l => rfl
  unfold create_tryon_request
  by_cases hb : humanBytes.isEmpty = true
  · rw [if_pos hb]
    exact ⟨rfl, "Human image file is empty", rfl⟩
  · rw [if_neg hb]
    cases hv : vhi humanBytes with
    | error m => exact ⟨rfl, m, rfl⟩
    | ok conv =>
      dsimp only
      rw [if_neg (by simp [hne]), if_pos h]
      exact ⟨rfl, "Maximum 3 clothing items allowed", rfl⟩

/-- Witness for c9_thm: four URLs carried comma-joined in the first value are
rejected with HTTP 400 and zero submissions. -/
theorem c9_witness :
    (create_tryon_request vhiOk genTryOk uploadGetOk "t2" [1] ["a,b,c,d"]).2 = [] ∧
    ∃ m, (create_tryon_request vhiOk genTryOk uploadGetOk "t2" [1] ["a,b,c,d"]).1
      = TryonResponse.err 400 m :=
  c9_thm vhiOk genTryOk uploadGetOk "t2" [1] ["a,b,c,d"] (by decide)

/-! ## Claim C10 — split-flow image validation is total and permissive -/

/-- Claim C10: the split-flow validation function always returns normally with
mime type image/jpeg; on any decoding or conversion failure it returns the
original input bytes; and when decoding and re-encoding succeed the converted
bytes are returned whatever the image dimensions — there is no rejection path, so
an undersized image is accepted the same as any other. -/
theorem c10_thm (decode : List Nat → Option PILImage)
    (encodeJPEG : PILImage → Option (List Nat)) (fileContent : List Nat) :
    ((validate_and_convert_image decode encodeJPEG fileContent).2 = "image/jpeg") ∧
    (decode fileContent = none →
      validate_and_convert_image decode encodeJPEG fileContent
        = (fileContent, "image/jpeg")) ∧
    (∀ img, decode fileContent = some img →
      encodeJPEG (normalizeMode img) = none →
      validate_and_convert_image decode encodeJPEG fileContent
        = (fileContent, "image/jpeg")) ∧
    (∀ img bs, decode fileContent = some img →
      encodeJPEG (normalizeMode img) = some bs →
      validate_and_convert_image decode encodeJPEG fileContent
        = (bs, "image/jpeg")) := by
  refine ⟨?_, ?_, ?_, ?_⟩
  · unfold validate_and_convert_image
    cases hd : decode fileContent with
    | none => rfl
    | some img =>
      dsimp only
      cases he : encodeJPEG (normalizeMode img) with
      | none => rfl
      | some bs => rfl
  · intro hd
    unfold validate_and_convert_image
    rw [hd]
  · intro img hd he
    unfold validate_and_convert_image
    rw [hd]
    dsimp only
    rw [he]
  · intro img bs hd he
    unfold validate_and_convert_image
    rw [hd]
    dsimp only
    rw [he]

/-- A well-formed 50 by 50 pixel image: below the 100 by 100 warning threshold. -/
def smallPng : PILImage :=
  { format := some "PNG", mode := "RGB", width := 50, height := 50 }

/-- Decoder that yields the undersized image. -/
def decodeSmall : List Nat → Option PILImage := fun _ => some smallPng

/-- Encoder that yields fixed JPEG bytes. -/
def encodeConst : PILImage → Option (List Nat) := fun _ => some [9, 9]

/-- Witness for c10_thm: the 50 by 50 image is accepted and converted, not
rejected, exactly as a large image would be. -/
theorem c10_witness :
    validate_and_convert_image decodeSmall encodeConst [1, 2] = ([9, 9], "image/jpeg") :=
  (c10_thm decodeSmall encodeConst [1, 2]).2.2.2 smallPng [9, 9] rfl rfl
